import Mathlib

/-!
Verification of the OctopusLite timelapse-acquisition scripts.

Shallow embedding of the code in `acquire.py`, `prior.py` and `utils.py`:
pure helpers become Lean functions, serial traffic is modelled by passing
the device's response behaviour as a function argument, and Python
exceptions become `Except` values of type `PyErr`.  The scripts are
Python 2 code; where a Python 2 semantic detail matters (mixed-type
comparison, string indexing) it is modelled explicitly and documented at
the definition.
-/

set_option maxRecDepth 4000
set_option linter.unusedVariables false

/-- Python exception values raised by the modelled code paths. -/
inductive PyErr where
  | exception (msg : String)
  | assertionError
  | nameError (name : String)
  | attributeError (msg : String)
  | typeError (msg : String)
  | deprecationWarning (msg : String)
  deriving Repr, DecidableEq

/-! ## Filename convention (acquire.py:39-46) -/

/-- Python format spec `0Nd` applied to a non-negative value: pad with
leading zeros up to the width, never truncate. -/
def padFormat (width n : Nat) : String :=
  String.mk (List.replicate (width - (toString n).length) '0') ++ toString n

/-- `image_filename` (acquire.py:39-46): Micro-Manager naming convention.
Arguments in source order: image number (round counter), position (slot
id), channel (trigger index), z index.  The format string places the
channel first, then position, then time, then z. -/
def image_filename (im_num pos_num channel_num z_num : Nat) : String :=
  "img_channel" ++ padFormat 3 channel_num ++ "_position" ++ padFormat 3 pos_num ++
    "_time" ++ padFormat 9 im_num ++ "_z" ++ padFormat 3 z_num ++ ".tif"

/-- C1: filename generation is a pure, deterministic function of the
round counter, slot id, trigger index and z index.  For all non-negative
integers the result is exactly
img_channel CCC _position PPP _time RRRRRRRRR _z ZZZ .tif with each field
zero-padded, and in particular round 2, position 1, trigger 0, z 0 yields
img_channel000_position001_time000000002_z000.tif. -/
theorem image_filename_format :
    image_filename 2 1 0 0 = "img_channel000_position001_time000000002_z000.tif" ∧
    image_filename 0 0 1 0 = "img_channel001_position000_time000000000_z000.tif" ∧
    (∀ r p t z, image_filename r p t z =
      "img_channel" ++ padFormat 3 t ++ "_position" ++ padFormat 3 p ++
        "_time" ++ padFormat 9 r ++ "_z" ++ padFormat 3 z ++ ".tif") :=
  ⟨by decide, by decide, fun r p t z => rfl⟩

/-! ## Busy-status decoding (prior.py:147-163) -/

/-- `STAGE_AXES` (prior.py:33). -/
def STAGE_AXES : List String := ["X", "Y", "Z", "S"]

/-- Python `str.split()` with no argument: split on runs of whitespace
(only the space character occurs here), dropping empty fields.  The
accumulator carries the current field in reverse. -/
def splitWS : List Char → List Char → List String
  | [], acc => if acc.isEmpty then [] else [String.mk acc.reverse]
  | c :: cs, acc =>
    if c = ' ' then
      if acc.isEmpty then splitWS cs [] else String.mk acc.reverse :: splitWS cs []
    else splitWS cs (c :: acc)

/-- Python `int()` on a string of decimal digits. -/
def digitsToNat (cs : List Char) : Nat :=
  cs.foldl (fun n c => n * 10 + (c.toNat - 48)) 0

/-- `[int(busy_axis) for busy_axis in ret.split()]` (prior.py:151). -/
def parseBusyResponse (ret : String) : List Nat :=
  (splitWS ret.data []).map (fun w => digitsToNat w.data)

/-- `status = sum(busy)` (prior.py:152). -/
def busyStatus (ret : String) : Nat := (parseBusyResponse ret).sum

/-- Python `bin()`: the string "0b" followed by the binary digits, most
significant first. -/
def pyBin (n : Nat) : String := "0b" ++ String.mk (Nat.toDigits 2 n)

/-- Python `s[::-1]`. -/
def strReverse (s : String) : String := String.mk s.data.reverse

/-- CPython 2 compares values of different built-in types by type name,
and numeric values sort before all other types, so a one-character
string compares greater than the integer 0 regardless of its content.
This models the comparison `moving[i] > 0` in `ProScanController.busy`
(prior.py:160), where `moving[i]` is a one-character string. -/
def py2CharGtZero (c : Char) : Bool := true

/-- `ProScanController.busy` (prior.py:147-163), as a function of the
response to the `$` status command: parse one integer per axis, sum
them; a zero sum returns not-busy.  When busy, the code reverses
`bin(status + 64)` and logs axis i when `moving[i] > 0`.  Returns the
busy boolean together with the list of axes reported as still moving. -/
def busyModel (ret : String) : Bool × List String :=
  let status := busyStatus ret
  if status = 0 then (false, [])
  else
    let moving := strReverse (pyBin (status + 64))
    (true, (List.take 3 STAGE_AXES).enum.filterMap fun p =>
      if py2CharGtZero (moving.data.getD p.1 ' ') then some p.2 else none)

/-- Modelled from the spec words, for comparison with `busyModel`: the
reported moving-axis set is the bit-test of the summed status against
the fixed axis order X, Y, Z. -/
def bitTestAxes (status : Nat) : List String :=
  (List.take 3 STAGE_AXES).enum.filterMap fun p =>
    if status.testBit p.1 then some p.2 else none

/-- C2: the busy boolean is true exactly when the summed status is
non-zero, as the claim states; but on the valid response "1 0 0" (sum 1,
only bit 0 set) the code reports every axis X, Y, Z as moving, while the
claimed bit-test reports only X: `moving[i] > 0` compares a one-character
string with an integer, which is always true in Python 2, so the
reported set never depends on the bits. -/
theorem busy_sum_and_axis_report :
    (∀ ret, (busyModel ret).1 = true ↔ busyStatus ret ≠ 0) ∧
    busyModel "1 0 0" = (true, ["X", "Y", "Z"]) ∧
    bitTestAxes (busyStatus "1 0 0") = ["X"] := by
  refine ⟨fun ret => ?_, by decide, by decide⟩
  by_cases h : busyStatus ret = 0 <;> simp [busyModel, h]

/-! ## Absolute move and completion polling (prior.py:94-113, utils.py:84-103)

`ProScanController.goto` sends one absolute-move command `G x, y, z`,
then runs `while self.busy and timeout.active: time.sleep(0.1)` and
finally `if self.busy and not timeout.active: raise`.

Time is discretized in poll ticks: one tick is one 100 ms sleep, so the
busy query of loop iteration t happens after t sleeps, and
`Timeout.active` (elapsed < timeout_seconds, utils.py:93-95) at tick t
means t < deadline, where deadline is the timeout expressed in ticks.
`busyAt t` is the controller's busy state at tick t; both the query in
the loop condition and the re-query in the `if` after the loop read the
state at the tick at which they happen. -/

/-- `Timeout.__init__` default `timeout_seconds=5` (utils.py:89). -/
def defaultTimeoutSeconds : Nat := 5

/-- The fixed sleep between polls, `time.sleep(0.1)` (prior.py:108). -/
def pollIntervalMs : Nat := 100

/-- The default timeout window expressed in poll ticks. -/
def defaultDeadline : Nat := defaultTimeoutSeconds * 1000 / pollIntervalMs

/-- The polling loop, fuelled: at tick t, if the busy query returns true
and the timeout window is still active (t < deadline) the loop sleeps
and moves to tick t + 1, otherwise it exits at tick t.  The fuel is
chosen so that it never runs out before the window expires. -/
def gotoLoopAux (busyAt : Nat → Bool) (deadline : Nat) : Nat → Nat → Nat
  | 0, t => t
  | fuel + 1, t => if busyAt t = true ∧ t < deadline then gotoLoopAux busyAt deadline fuel (t + 1) else t

/-- The tick at which the polling loop of `goto` exits. -/
def gotoLoopExit (busyAt : Nat → Bool) (deadline : Nat) : Nat :=
  gotoLoopAux busyAt deadline (deadline + 1) 0

/-- Number of busy queries made by the polling loop itself (one per
iteration, the last one being the query on which the loop exits). -/
def loopQueryCount (busyAt : Nat → Bool) (deadline : Nat) : Nat :=
  gotoLoopExit busyAt deadline + 1

/-- The post-loop check `if self.busy and not timeout.active: raise`
(prior.py:111-113), evaluated at the tick at which the loop exited. -/
def gotoRaises (busyAt : Nat → Bool) (deadline : Nat) : Bool :=
  busyAt (gotoLoopExit busyAt deadline) && decide (deadline ≤ gotoLoopExit busyAt deadline)

/-- The absolute-move command `"G {}, {}, {}"` (prior.py:98-103),
coordinates in the order position[0], position[1], position[2]. -/
def moveCommand (x y z : Int) : String :=
  "G " ++ toString x ++ ", " ++ toString y ++ ", " ++ toString z

/-- `ProScanController.goto` (prior.py:94-113): the list of move
commands it sends, and whether it raises the motion-timeout exception. -/
def gotoModel (x y z : Int) (busyAt : Nat → Bool) (deadline : Nat) : List String × Bool :=
  ([moveCommand x y z], gotoRaises busyAt deadline)

theorem gotoLoopAux_spec (b : Nat → Bool) (d : Nat) :
    ∀ fuel t, t ≤ d → d < t + fuel →
      t ≤ gotoLoopAux b d fuel t ∧
      gotoLoopAux b d fuel t ≤ d ∧
      (∀ s, t ≤ s → s < gotoLoopAux b d fuel t → b s = true ∧ s < d) ∧
      ¬(b (gotoLoopAux b d fuel t) = true ∧ gotoLoopAux b d fuel t < d) := by
  intro fuel
  induction fuel with
  | zero => intro t ht hf; omega
  | succ m ih =>
    intro t ht hf
    by_cases h : b t = true ∧ t < d
    · have e_eq : gotoLoopAux b d (m + 1) t = gotoLoopAux b d m (t + 1) := by
        simp only [gotoLoopAux, if_pos h]
      have hrec := ih (t + 1) (by omega) (by omega)
      rw [e_eq]
      obtain ⟨h1, h2, h3, h4⟩ := hrec
      refine ⟨by omega, h2, ?_, h4⟩
      intro s hs1 hs2
      rcases Nat.eq_or_lt_of_le hs1 with heq | hlt
      · exact heq ▸ h
      · exact h3 s (by omega) hs2
    · have e_eq : gotoLoopAux b d (m + 1) t = t := by
        simp only [gotoLoopAux, if_neg h]
      rw [e_eq]
      exact ⟨Nat.le_refl t, ht, fun s hs1 hs2 => absurd hs2 (by omega), h⟩

theorem gotoLoopExit_spec (b : Nat → Bool) (d : Nat) :
    gotoLoopExit b d ≤ d ∧
    (∀ s, s < gotoLoopExit b d → b s = true ∧ s < d) ∧
    ¬(b (gotoLoopExit b d) = true ∧ gotoLoopExit b d < d) := by
  have h := gotoLoopAux_spec b d (d + 1) 0 (by omega) (by omega)
  exact ⟨h.2.1, fun s hs => h.2.2.1 s (by omega) hs, h.2.2.2⟩

/-- C3: `goto` sends exactly one absolute-move command and then polls
`busy`, sleeping 100 ms between polls, inside a timeout window whose
default is 5 seconds (50 ticks).  It raises the fatal motion-timeout
exception exactly when the controller is busy at every tick up to and
including the window's expiry, and returns normally exactly when the
controller reports non-busy at some tick within the window; the polling
loop itself never runs past the window. -/
theorem goto_timeout_behavior (x y z : Int) (busyAt : Nat → Bool) (deadline : Nat) :
    (gotoModel x y z busyAt deadline).1 = [moveCommand x y z] ∧
    ((gotoModel x y z busyAt deadline).2 = true ↔ ∀ t, t ≤ deadline → busyAt t = true) ∧
    ((gotoModel x y z busyAt deadline).2 = false ↔ ∃ t, t ≤ deadline ∧ busyAt t = false) ∧
    gotoLoopExit busyAt deadline ≤ deadline ∧
    defaultDeadline = defaultTimeoutSeconds * 1000 / pollIntervalMs := by
  obtain ⟨hle, hbefore, hexit⟩ := gotoLoopExit_spec busyAt deadline
  have hmain : gotoRaises busyAt deadline = true ↔ ∀ t, t ≤ deadline → busyAt t = true := by
    constructor
    · intro hr t htd
      rw [gotoRaises, Bool.and_eq_true, decide_eq_true_eq] at hr
      obtain ⟨hb, hd⟩ := hr
      have heq : gotoLoopExit busyAt deadline = deadline := by omega
      rcases Nat.lt_or_ge t deadline with hlt | hge
      · exact (hbefore t (by omega)).1
      · have : t = deadline := by omega
        rw [this, ← heq]; exact hb
    · intro hall
      have hb : busyAt (gotoLoopExit busyAt deadline) = true := hall _ hle
      have hd : deadline ≤ gotoLoopExit busyAt deadline := by
        by_contra hlt
        exact hexit ⟨hb, by omega⟩
      rw [gotoRaises, Bool.and_eq_true, decide_eq_true_eq]
      exact ⟨hb, hd⟩
  refine ⟨rfl, hmain, ?_, hle, rfl⟩
  rw [show (gotoModel x y z busyAt deadline).2 = gotoRaises busyAt deadline from rfl]
  rw [← Bool.not_eq_true, hmain]
  push_neg
  constructor
  · rintro ⟨t, ht, hb⟩; exact ⟨t, ht, by simp [hb]⟩
  · rintro ⟨t, ht, hb⟩; exact ⟨t, ht, by simp [hb]⟩

/-- C4 counterexample: on the scripted busy-response sequence that
answers zero (not busy) to every query, with the default 50-tick window,
the polling loop of `goto` exits after a single busy query — it does not
wait for three consecutive zero responses (which would require three
queries), refuting the claim that it exits exactly at the first point
where three consecutive queries yield zero. -/
theorem goto_poll_exits_on_first_zero :
    loopQueryCount (fun t => false) defaultDeadline = 1 ∧ (1 : Nat) ≠ 3 :=
  ⟨rfl, by decide⟩

/-- C4 amended: `goto` formats exactly one move command with the
coordinates in X, Y, Z order, and for every scripted sequence of busy
responses the polling loop exits at the first query that returns zero
or, failing that, once the timeout window has expired: every query
strictly before the exit returned non-zero while the window was active,
and at the exit either the query returned zero or the window had
expired. -/
theorem goto_move_and_first_zero_exit (x y z : Int) (script : Nat → Bool) (deadline : Nat) :
    (gotoModel x y z script deadline).1 =
      ["G " ++ toString x ++ ", " ++ toString y ++ ", " ++ toString z] ∧
    (∀ j, j < gotoLoopExit script deadline → script j = true ∧ j < deadline) ∧
    (script (gotoLoopExit script deadline) = false ∨ deadline ≤ gotoLoopExit script deadline) ∧
    gotoLoopExit script deadline ≤ deadline := by
  obtain ⟨hle, hbefore, hexit⟩ := gotoLoopExit_spec script deadline
  refine ⟨rfl, hbefore, ?_, hle⟩
  by_cases hb : script (gotoLoopExit script deadline) = true
  · right
    by_contra hlt
    exact hexit ⟨hb, by omega⟩
  · left
    exact Bool.not_eq_true _ ▸ (by simpa using hb)

/-! ## Serial command channel (utils.py:30-78) -/

/-- Outcome of the underlying pyserial `write` call. -/
inductive WriteOutcome where
  | ok
  | serialTimeout
  | serialFailure (msg : String)
  deriving Repr, DecidableEq

/-- How a call to `send_serial_command` ends: a normal return or a
propagating exception. -/
inductive SendResult where
  | returned
  | raised (msg : String)
  deriving Repr, DecidableEq

/-- Python `cmd.endswith("\r")`: the last character is a carriage
return. -/
def endsWithCR (cmd : String) : Bool :=
  decide (cmd.data.getLast? = some '\r')

/-- `if not cmd.endswith("\r"): cmd += "\r"` (utils.py:57). -/
def normalizeCmd (cmd : String) : String :=
  if endsWithCR cmd then cmd else cmd ++ "\r"

/-- `SerialWrapper.send_serial_command` (utils.py:55-62): normalize the
terminator, try the write; `serial.SerialTimeoutException` is caught,
logged and the function returns normally; any other exception from the
write propagates.  The behaviour of the underlying write is passed in as
a function of the transmitted bytes. -/
def send_serial_command (write : String → WriteOutcome) (cmd : String) : SendResult :=
  match write (normalizeCmd cmd) with
  | WriteOutcome.ok => SendResult.returned
  | WriteOutcome.serialTimeout => SendResult.returned
  | WriteOutcome.serialFailure msg => SendResult.raised msg

/-- C7: a write failure is not always propagated.  When the serial write
raises `SerialTimeoutException` (write buffer full under a write
timeout), `send_serial_command` catches it, logs it and returns
normally, contradicting the claim that every write failure signals a
transport-level error to the caller.  Other write exceptions do
propagate, and the command is CR-terminated before transmission. -/
theorem send_swallows_write_timeout :
    send_serial_command (fun s => WriteOutcome.serialTimeout) "G 100, 200, 3" =
      SendResult.returned ∧
    send_serial_command (fun s => WriteOutcome.serialFailure "device disconnected")
      "G 100, 200, 3" = SendResult.raised "device disconnected" ∧
    normalizeCmd "G 100, 200, 3" = "G 100, 200, 3\r" :=
  ⟨rfl, rfl, by decide⟩

/-! ## PriorStage parameter setting (prior.py:181-296) -/

/-- The device acknowledgement string `DEVICE_OK` (prior.py:32). -/
def DEVICE_OK : String := "0\r"

/-- `PriorStage._set` (prior.py:199-204): send the command and require
the acknowledgement; a non-ack response raises.  The device's response
behaviour is passed in as a function of the command. -/
def PriorStage_set (device : String → String) (cmd : String) : Except PyErr Unit :=
  if device cmd = DEVICE_OK then Except.ok ()
  else Except.error (PyErr.exception ("Command: " ++ cmd ++ " failed."))

/-- The `acceleration` setter as written (prior.py:256-261): first the
assertion `acceleration > 0 and acceleration <= 100`; when it passes,
the next statement formats the command from the name `max_speed`, which
is unbound in that scope, so Python raises NameError before any command
is sent.  The result carries the list of commands sent on success;
no path reaches a send. -/
def acceleration_setter (device : String → String) (axis : String) (v : Int) :
    Except PyErr (List String) :=
  if v > 0 ∧ v ≤ 100 then Except.error (PyErr.nameError "max_speed")
  else Except.error PyErr.assertionError

/-- Modelled from the spec words, for comparison with
`acceleration_setter`: validate v in (0, 100] before anything is sent,
then send exactly one command "SA" ++ axis ++ ", " ++ v and raise a
configuration error unless the device acknowledges. -/
def acceleration_setter_spec (device : String → String) (axis : String) (v : Int) :
    Except PyErr (List String) :=
  if v > 0 ∧ v ≤ 100 then
    match PriorStage_set device ("SA" ++ axis ++ ", " ++ toString v) with
    | Except.ok _ => Except.ok ["SA" ++ axis ++ ", " ++ toString v]
    | Except.error e => Except.error e
  else Except.error PyErr.assertionError

/-- C8: setting the acceleration of a configured axis never sends the
command the claim describes.  With an always-acknowledging device and
the in-range value 50 on axis S, the setter as written raises NameError
on the unbound name `max_speed` (a copy-paste slip from the max_speed
setter) and sends nothing, while the spec-modelled setter sends exactly
"SAS, 50".  The claim's validation part does hold: an out-of-range value
fails the assertion before any command is formatted. -/
theorem acceleration_setter_name_error :
    acceleration_setter (fun cmd => DEVICE_OK) "S" 50 =
      Except.error (PyErr.nameError "max_speed") ∧
    acceleration_setter (fun cmd => DEVICE_OK) "S" 150 =
      Except.error PyErr.assertionError ∧
    acceleration_setter_spec (fun cmd => DEVICE_OK) "S" 50 = Except.ok ["SAS, 50"] :=
  ⟨rfl, rfl, rfl⟩

/-! ## ProScanController construction (prior.py:74-92, 115-117) -/

/-- `ProScanController.ttl` (prior.py:115-117): its first statement is
`raise DeprecationWarning("Use prior.TTL")`, so every call raises; the
delegation to `TTL` below the raise is dead code. -/
def ttl (pin : Nat) (state : Bool) : Except PyErr Unit :=
  Except.error (PyErr.deprecationWarning "Use prior.TTL")

/-- `ProScanController.__init__` (prior.py:74-92): send the `COMP`
handshake and require `DEVICE_OK`, instantiate the configured devices
(`PriorStage.__init__` only logs the configuration — the `setattr` that
would apply it is commented out, so this step sends nothing), then reset
TTL pins 0 to 3 via `self.ttl(pin=pin, state=False)`.  `compResponse` is
the device's answer to `COMP`; `numDevices` the length of the devices
list. -/
def proscan_init (compResponse : String) (numDevices : Nat) : Except PyErr Unit :=
  if compResponse ≠ DEVICE_OK then
    Except.error (PyErr.exception "ProScan controller is not in Standard mode")
  else
    (List.range 4).foldlM (fun u pin => ttl pin false) ()

/-- C10: construction of a `ProScanController` whose COMP handshake is
acknowledged never completes.  Whatever the devices list (and the port
and baud, which only select the serial line and do not enter the logic),
after the handshake and device instantiation the constructor's TTL-reset
loop calls the deprecated `ttl` method on pin 0, whose first statement
raises DeprecationWarning, so construction always terminates with that
exception. -/
theorem proscan_init_always_raises (numDevices : Nat) :
    proscan_init DEVICE_OK numDevices =
      Except.error (PyErr.deprecationWarning "Use prior.TTL") := rfl

/-! ## Acquisition scheduler (acquire.py:55-134, 140-274, 371-414)

`AcquisitionObject` is the per-position slot: the position, the shared
trigger list (modelled by its length: each trigger, when invoked,
returns one image buffer, abstracted here), the round counter, the
target round count `num_images`, and the pending-write cache; the cache
entry for a captured image is identified by its destination filename.

`AcquisitionManager.acquire` is written
`for acq in self.positions if acq.active:` in the source, which is not
valid Python syntax; per the evident intent (and the spec's reading) it
is modelled as iteration over the active positions.  Each visit calls
`goto_and_acquire`, which in the source raises TypeError at
`self.goto()` (acquire.py:132; `goto` is declared with a `proscan`
parameter at :115) before the slot can acquire.  The faithful sweep
model (`AcquisitionManager.acquire_sweep_faithful` below) keeps that
crash; `slotStep`/`AcquisitionManager.acquire_sweep` model the
intent-repaired round that elides it, and are used only where that
repair is conservative (the cache-persistence refutation). -/

structure AcquisitionObject where
  id : Nat
  path : String
  position : Int × Int × Int
  numTriggers : Nat
  num_images : Nat
  counter : Nat
  cache : List String
  deriving Repr, DecidableEq

/-- `os.path.join` for the shapes used here: an empty left component is
dropped, otherwise the components are joined with one separator. -/
def osJoin (a b : String) : String := if a = "" then b else a ++ "/" ++ b

/-- `AcquisitionObject.folder` (acquire.py:89-91). -/
def AcquisitionObject.folder (a : AcquisitionObject) : String :=
  osJoin a.path ("Pos" ++ toString a.id)

/-- `AcquisitionObject.active` (acquire.py:93-95):
`image_num < num_images`, where `image_num` is the counter. -/
def AcquisitionObject.active (a : AcquisitionObject) : Bool :=
  decide (a.counter < a.num_images)

/-- `AcquisitionObject.acquire` (acquire.py:119-127): invoke each
trigger in order, appending `(channel_fn, channel_img)` to the cache —
with `channel_fn = os.path.join(folder, image_filename(image_num, id,
t))` — then increment the counter once. -/
def AcquisitionObject.acquire (a : AcquisitionObject) : AcquisitionObject :=
  { a with
    cache := a.cache ++ (List.range a.numTriggers).map
      (fun t => osJoin a.folder (image_filename a.counter a.id t 0)),
    counter := a.counter + 1 }

/-- One slot's treatment in a round of the intent-repaired sweep:
active slots are visited and acquired, inactive slots are untouched.
This elides the TypeError that `goto_and_acquire` raises in the source
(modelled faithfully below): it describes the round the code was meant
to perform, as a conservative over-approximation — even this repaired
round never drains a cache. -/
def slotStep (a : AcquisitionObject) : AcquisitionObject :=
  if a.active then a.acquire else a

/-- `AcquisitionManager.active` (acquire.py:162-165). -/
def AcquisitionManager.active (ps : List AcquisitionObject) : Bool :=
  ps.any AcquisitionObject.active

/-- The intent-repaired per-round sweep of `AcquisitionManager.acquire`
(acquire.py:231-232): every active slot is visited and acquired, in
list order, as if each slot visit completed.  The sweep as the source
actually executes it is `AcquisitionManager.acquire_sweep_faithful`
below, which aborts with a TypeError at the first active slot. -/
def AcquisitionManager.acquire_sweep (ps : List AcquisitionObject) : List AcquisitionObject :=
  ps.map slotStep

/-- `active[0].goto()` (acquire.py:237) where `active[0]` is a `bool`
(the first element of `[p.active for p in self.positions]`): Python
bools have no `goto` attribute, so the call raises AttributeError. -/
def bool_goto (b : Bool) : Except PyErr Unit :=
  Except.error (PyErr.attributeError "bool object has no attribute goto")

/-- The return-to-rest step at the end of `AcquisitionManager.acquire`
(acquire.py:234-237): `active = [p.active for p in self.positions]`
builds a list of booleans; `if active:` tests the list's truthiness,
which is mere non-emptiness; the guarded call is `active[0].goto()`. -/
def AcquisitionManager.rest_move (ps : List AcquisitionObject) : Except PyErr Unit :=
  let activeFlags := ps.map AcquisitionObject.active
  if activeFlags.isEmpty then Except.ok ()
  else bool_goto (activeFlags.headD false)

/-- `AcquisitionManager.acquire` (acquire.py:227-240): the sweep over
the active slots, then the rest move computed on the updated slots. -/
def AcquisitionManager.acquire_round (ps : List AcquisitionObject) :
    List AcquisitionObject × Except PyErr Unit :=
  (AcquisitionManager.acquire_sweep ps,
   AcquisitionManager.rest_move (AcquisitionManager.acquire_sweep ps))

/-- Modelled from the spec words, for comparison with
`AcquisitionManager.rest_move`: the rest position is the first active
slot's position, or the global first slot's position if none remain
active. -/
def restPositionSpec (ps : List AcquisitionObject) : Option (Int × Int × Int) :=
  match ps.find? AcquisitionObject.active with
  | some a => some a.position
  | none => (ps.head?).map AcquisitionObject.position

/-- `AcquisitionObject.write_images` (acquire.py:108-113): pop every
cache entry in FIFO order and write it out; returns the drained slot and
the filenames written.  Defined to document what draining a cache is;
the main loop below never invokes it. -/
def AcquisitionObject.write_images (a : AcquisitionObject) :
    AcquisitionObject × List String :=
  ({ a with cache := [] }, a.cache)

/-- The main loop of `acquire` (acquire.py:395-411): while any slot is
active, run one round's sweep, then wait out the round's timeout window
(the wait only sleeps and logs, so it is elided here; the end-of-round
rest move, modelled separately as `AcquisitionManager.rest_move`,
mutates no slot state).  The body calls `manager.acquire()` only: no
call in the loop — or anywhere after it — drains the caches via
`write_image`/`write_images`.  The loop is stated over the
intent-repaired sweep; in the source the first sweep already raises
(see `AcquisitionManager.acquire_sweep_faithful`), which only
strengthens the cache-persistence refutation: the caches are drained
under neither reading.  The fuel bounds the while loop. -/
def runLoop : Nat → List AcquisitionObject → List AcquisitionObject
  | 0, ps => ps
  | fuel + 1, ps =>
    if AcquisitionManager.active ps then runLoop fuel (AcquisitionManager.acquire_sweep ps)
    else ps

/-- The caches of all slots, in slot order. -/
def caches (ps : List AcquisitionObject) : List (List String) :=
  ps.map AcquisitionObject.cache

/-- `AcquisitionObject.goto` is declared `def goto(self, proscan)`
(acquire.py:115-117), but `goto_and_acquire` (acquire.py:129-133)
invokes it as `self.goto()`, one argument short, so Python 2 raises
TypeError before the method body — and therefore before
`self.acquire()` — can run.  No execution path reaches the slot's
acquisition. -/
def AcquisitionObject.goto_and_acquire (a : AcquisitionObject) :
    Except PyErr AcquisitionObject :=
  Except.error (PyErr.typeError "goto() takes exactly 2 arguments (1 given)")

/-- Helper for the faithful sweep: visit the slots in order, carrying
the already-visited slots in reverse; a raised exception aborts the
sweep, leaving the unvisited slots as they were. -/
def sweepFaithfulAux : List AcquisitionObject → List AcquisitionObject →
    List AcquisitionObject × Option PyErr
  | [], done => (done.reverse, none)
  | a :: rest, done =>
    if a.active then
      match a.goto_and_acquire with
      | Except.ok a2 => sweepFaithfulAux rest (a2 :: done)
      | Except.error e => (done.reverse ++ a :: rest, some e)
    else sweepFaithfulAux rest (a :: done)

/-- The per-round sweep as the source executes it (acquire.py:231-232,
the iteration again read per its evident intent over the active slots):
each active slot is visited via `goto_and_acquire`, whose TypeError
propagates out of `AcquisitionManager.acquire` and aborts the sweep.
Returns the slot states when the sweep ends, together with the
propagating exception, if any. -/
def AcquisitionManager.acquire_sweep_faithful (ps : List AcquisitionObject) :
    List AcquisitionObject × Option PyErr :=
  sweepFaithfulAux ps []

def planSlot0 : AcquisitionObject :=
  ⟨0, "", (0, 0, 0), 1, 2, 0, []⟩

def planSlot1 : AcquisitionObject :=
  ⟨1, "", (10, 20, 3), 1, 2, 0, []⟩

/-- C6: the claimed run never happens.  On a concrete plan of two slots,
one trigger each, target_rounds = 2, the first round's sweep visits the
first active slot via `goto_and_acquire`, which raises TypeError at
`self.goto()` before `acquire()` can run; the exception propagates with
every counter still 0, every cache still empty, and the plan still
active.  The scheduler therefore performs 0 acquisitions per slot, not
target_rounds, and never becomes globally inactive; the counter
invariant is never violated only because no counter ever moves. -/
theorem scheduler_crashes_before_acquiring :
    AcquisitionManager.acquire_sweep_faithful [planSlot0, planSlot1] =
      ([planSlot0, planSlot1],
        some (PyErr.typeError "goto() takes exactly 2 arguments (1 given)")) ∧
    (∀ a ∈ [planSlot0, planSlot1], a.counter = 0 ∧ a.cache = []) ∧
    AcquisitionManager.active [planSlot0, planSlot1] = true :=
  ⟨by decide, by decide, rfl⟩

def cacheSlot : AcquisitionObject :=
  ⟨0, "", (0, 0, 0), 1, 2, 0, []⟩

/-- C5: pending-write caches are never drained between rounds.  On a run
with one slot, one trigger and two target rounds, the entry cached in
round 0 is still in the slot's cache when the round-1 sweep runs, and
the full run leaves both entries cached: the main loop (acquire.py:
395-414) never calls `write_image`, so no cache is ever written out or
cleared, contradicting the claim that every buffered pair is written and
the cache emptied before the next round begins. -/
theorem caches_persist_across_rounds :
    caches (AcquisitionManager.acquire_sweep [cacheSlot]) =
      [["Pos0/img_channel000_position000_time000000000_z000.tif"]] ∧
    caches ((AcquisitionManager.acquire_sweep)^[2] [cacheSlot]) =
      [["Pos0/img_channel000_position000_time000000000_z000.tif",
        "Pos0/img_channel000_position000_time000000001_z000.tif"]] ∧
    caches (runLoop 5 [cacheSlot]) =
      [["Pos0/img_channel000_position000_time000000000_z000.tif",
        "Pos0/img_channel000_position000_time000000001_z000.tif"]] :=
  ⟨by decide, by decide, by decide⟩

def restSlot0 : AcquisitionObject :=
  ⟨0, "", (0, 0, 0), 1, 1, 1, []⟩

def restSlot1 : AcquisitionObject :=
  ⟨1, "", (100, 200, 3), 1, 2, 1, []⟩

/-- C9: the end-of-round return to rest never commands the stage.  With
slot 0 inactive and slot 1 active, the code builds
`active = [False, True]`, the `if active:` guard passes because the list
is non-empty, and `active[0].goto()` raises AttributeError since
`active[0]` is the boolean `False` — no move command is issued; the
rest position the claim describes is slot 1's position (100, 200, 3),
which is not slot 0's position that index 0 points at. -/
theorem rest_move_attribute_error :
    AcquisitionManager.rest_move [restSlot0, restSlot1] =
      Except.error (PyErr.attributeError "bool object has no attribute goto") ∧
    restPositionSpec [restSlot0, restSlot1] = some (100, 200, 3) ∧
    restPositionSpec [restSlot0, restSlot1] ≠ some restSlot0.position :=
  ⟨rfl, rfl, by decide⟩
